import Mathlib

/-!
Shallow embedding of the blackbox variational inference library
(blackbox/inferences.py and blackbox/variationals/likelihoods.py).

Numeric tensors are modelled over the reals.  A minibatch of latent samples
is a function `Mat : ℕ → ℕ → ℝ` (row index, column index).  A data batch is
abstracted to a single real value; the data source `data.sample` is a stream
`DataT : ℕ → ℝ` indexed by the number of draws made so far, threaded as an
explicit counter.  Exceptions are modelled with `Except PyErr`.

The distribution primitives of blackbox/stats (bernoulli.logpmf,
beta.logpdf, norm.logpdf, the rvs samplers) are external collaborators per
the specification (sections 1 and 6); they are taken as function parameters.
-/

noncomputable section

/-- Failure modes of the embedded code: an out-of-range dimension index in a
per-dimension log-density, a capability that the family/strategy does not
implement, and a Python local variable read before assignment. -/
inductive PyErr where
  | indexOutOfRange : PyErr
  | unsupportedOperation : String → PyErr
  | unboundLocal : String → PyErr
  deriving DecidableEq

/-- A minibatch of latent samples: row b, column j. -/
abbrev Mat := ℕ → ℕ → ℝ

/-- The data source, as the stream of batches its successive
`data.sample(n_data)` calls return. -/
abbrev DataT := ℕ → ℝ

/-- tf.sigmoid, the transform of MFBernoulli (likelihoods.py line 83). -/
def sigmoid (x : ℝ) : ℝ := 1 / (1 + Real.exp (-x))

/-- tf.nn.softplus, the transform of MFBeta and of MFGaussian's scale
(likelihoods.py lines 132, 183). -/
def softplus (x : ℝ) : ℝ := Real.log (1 + Real.exp x)

/-- tf.reduce_mean over a minibatch of size B. -/
def vecMean (B : ℕ) (f : ℕ → ℝ) : ℝ := (∑ b ∈ Finset.range B, f b) / B

/-- tf.reduce_max over a minibatch of size B (degenerate at B = 0, which the
run loop never produces; no theorem depends on the value returned). -/
def vecMax (B : ℕ) (f : ℕ → ℝ) : ℝ := ((List.range B).map f).foldr max (f 0)

/-! ## likelihoods.py: the variational families -/

/-- Base-class methods that a family may or may not provide: the optional
`sample_noise` and `reparam` capabilities (commented-out stubs in the base
class, lines 22-47; present only on families implementing them). -/
structure LikelihoodMethods where
  sample_noise : Option (ℕ → Mat)
  reparam : Option (Mat → Mat)

/-- Likelihood.sample, lines 49-68: `return sess.run(self.reparam(
self.sample_noise(size)))`.  Python resolves the attribute `self.reparam`
first, then evaluates the argument `self.sample_noise(size)`; a missing
attribute fails as an unsupported operation. -/
def Likelihood.sample (f : LikelihoodMethods) (size : ℕ) : Except PyErr Mat :=
  match f.reparam with
  | none => Except.error (PyErr.unsupportedOperation "reparam")
  | some rp =>
    match f.sample_noise with
    | none => Except.error (PyErr.unsupportedOperation "sample_noise")
    | some sn => Except.ok (rp (sn size))

/-- MFBernoulli: the probability vector computed by print_params (lines
87-93) and sample (lines 98-108): `p = sigmoid(p_unconst)` followed, when
`p.size > 1`, by `p[-1] = 1.0 - np.sum(p[:-1])`. -/
def MFBernoulli.completed_p (d : ℕ) (pu : ℕ → ℝ) : ℕ → ℝ :=
  fun j =>
    if 1 < d ∧ j = d - 1 then 1 - ∑ k ∈ Finset.range (d - 1), sigmoid (pu k)
    else sigmoid (pu j)

/-- MFBernoulli.print_params, lines 87-93: the probability vector printed. -/
def MFBernoulli.print_params (d : ℕ) (pu : ℕ → ℝ) : ℕ → ℝ :=
  MFBernoulli.completed_p d pu

/-- MFBernoulli.sample, lines 98-108: `z = np.zeros(size)`, then column d of
z is `bernoulli.rvs(p[d], size=size[0])` for each dimension d, with p the
completed probability vector.  The sampler `rvs` is an external collaborator
(probability, row index ↦ variate). -/
def MFBernoulli.sample (d : ℕ) (pu : ℕ → ℝ) (rvs : ℝ → ℕ → ℝ) : Mat :=
  fun b j => if j < d then rvs (MFBernoulli.completed_p d pu j) b else 0

/-- MFBernoulli.log_prob_zi, lines 115-118: the probability parameter fed to
`bernoulli.logpmf`.  After the `i >= num_vars` guard has passed, the test
`i < self.num_vars` always holds, so the simplex-completion branch
(line 118, `1.0 - tf.reduce_sum(self.transform(self.p_unconst[-1]))`) is
unreachable; it is reproduced here verbatim. -/
def MFBernoulli.lp_prob (d : ℕ) (pu : ℕ → ℝ) (i : ℕ) : ℝ :=
  if i < d then sigmoid (pu i) else 1 - sigmoid (pu (d - 1))

/-- MFBernoulli.log_prob_zi, lines 110-120: guard on `i >= self.num_vars`
(a bare `raise`), then `bernoulli.logpmf(z[:, i], pi)` with the collaborator
`lpmf` (value, probability ↦ log-pmf). -/
def MFBernoulli.log_prob_zi (d : ℕ) (pu : ℕ → ℝ) (lpmf : ℝ → ℝ → ℝ)
    (i : ℕ) (z : Mat) : Except PyErr (ℕ → ℝ) :=
  if i ≥ d then Except.error PyErr.indexOutOfRange
  else Except.ok fun b => lpmf (z b i) (MFBernoulli.lp_prob d pu i)

/-- MFBeta.log_prob_zi, lines 160-170: guard on `i >= self.num_vars`, then
`beta.logpdf(z[:, i], ai, bi)` with `ai = softplus(a_unconst)[i]`,
`bi = softplus(b_unconst)[i]`; `bpdf` is the collaborator
(value, shape, scale ↦ log-pdf). -/
def MFBeta.log_prob_zi (d : ℕ) (au bu : ℕ → ℝ) (bpdf : ℝ → ℝ → ℝ → ℝ)
    (i : ℕ) (z : Mat) : Except PyErr (ℕ → ℝ) :=
  if i ≥ d then Except.error PyErr.indexOutOfRange
  else Except.ok fun b => bpdf (z b i) (softplus (au i)) (softplus (bu i))

/-- MFGaussian.sample_noise, lines 199-210: `norm.rvs(size=size)`, the raw
standard-normal draw produced by the external sampler. -/
def MFGaussian.sample_noise (noise : Mat) : Mat := noise

/-- MFGaussian.reparam, lines 212-219: `m + eps * s` with
`m = transform_m(m_unconst) = identity(m_unconst)` and
`s = transform_s(s_unconst) = softplus(s_unconst)`, elementwise. -/
def MFGaussian.reparam (mu su : ℕ → ℝ) (eps : Mat) : Mat :=
  fun b j => id (mu j) + eps b j * softplus (su j)

/-- MFGaussian.sample, lines 221-229: `m + s * norm.rvs(size=size)`, stated
as a function of the standard-normal draw `noise`. -/
def MFGaussian.sample (mu su : ℕ → ℝ) (noise : Mat) : Mat :=
  fun b j => id (mu j) + softplus (su j) * noise b j

/-- MFGaussian.log_prob_zi, lines 231-242: guard on `i >= self.num_vars`,
then per row `norm.logpdf(zm[i], mi, si*si)` with `mi = identity(m_unconst)[i]`
and `si = softplus(s_unconst)[i]` — the std-dev si is literally squared in
the third argument.  `npdf` is the collaborator
(value, location, scale-or-variance argument ↦ log-pdf). -/
def MFGaussian.log_prob_zi (d : ℕ) (mu su : ℕ → ℝ) (npdf : ℝ → ℝ → ℝ → ℝ)
    (i : ℕ) (z : Mat) : Except PyErr (ℕ → ℝ) :=
  if i ≥ d then Except.error PyErr.indexOutOfRange
  else Except.ok fun b => npdf (z b i) (id (mu i)) (softplus (su i) * softplus (su i))

/-! ## inferences.py: the inference engine -/

/-- The external probability model: `log_prob(x, z)` returns the per-row log
joint density of the sample batch z given the data batch x. -/
structure ModelT where
  log_prob : ℝ → Mat → ℕ → ℝ

/-- The variational model as the inference engine sees it: dimensionality,
per-dimension log-density (total here: the engine only calls it with
`i < num_vars`), the optional analytic entropy (`some` iff
`hasattr(self.variational, 'entropy')`), and the reparameterization map. -/
structure VariationalT where
  num_vars : ℕ
  log_prob_zi : ℕ → Mat → ℕ → ℝ
  entropy : Option ℝ
  reparam : Mat → Mat

/-- inferences.py lines 51-54: `self.score = False` iff the `score` argument
is None and `reparam` is in the variational class dict; any other
combination — including an explicit `score=False` — forces `True`. -/
def Inference.resolve_score (score : Option Bool) (has_reparam : Bool) : Bool :=
  if score = none ∧ has_reparam = true then false else true

/-- A built loss graph: the data batch baked in at construction, the loss
and the per-draw elbo estimate as functions of the placeholder batch fed at
each iteration. -/
structure Graph where
  x : ℝ
  loss : Mat → ℝ
  elbos : Mat → ℕ → ℝ

/-- The summed q log-density `q_log_prob` (inferences.py lines 120-122,
132-134, 182-184): sum of `log_prob_zi(i, samples)` over `i < num_vars`. -/
def q_log_prob (v : VariationalT) (samp : Mat) (b : ℕ) : ℝ :=
  ∑ i ∈ Finset.range v.num_vars, v.log_prob_zi i samp b

/-- MFVI.build_score_loss, lines 112-139.  Returns the built graph (or the
raised error) together with the data-draw counter after the call.  In the
analytic-entropy branch, line 124 reads the local variable `x`, which is
assigned only in the other branch (line 136), so Python raises
UnboundLocalError before any data draw.  In the other branch, one batch is
drawn, `elbos = model.log_prob(x, samples) - q_log_prob`, and the loss is
`-mean(q_log_prob * stop_gradient(elbos))` (stop_gradient is the identity on
values). -/
def MFVI.build_score_loss (model : ModelT) (v : VariationalT) (data : DataT)
    (B dst : ℕ) : Except PyErr Graph × ℕ :=
  match v.entropy with
  | some _ => (Except.error (PyErr.unboundLocal "x"), dst)
  | none =>
    let x := data dst
    let elbos : Mat → ℕ → ℝ := fun samp b => model.log_prob x samp b - q_log_prob v samp b
    (Except.ok
      { x := x
        loss := fun samp => -vecMean B (fun b => q_log_prob v samp b * elbos samp b)
        elbos := elbos }, dst + 1)

/-- MFVI.build_reparam_loss, lines 141-164: `z = reparam(samples)`; both
branches draw one data batch; `self.elbos` is the scalar mean ELBO
(broadcast per draw here), and the loss is its negation. -/
def MFVI.build_reparam_loss (model : ModelT) (v : VariationalT) (data : DataT)
    (B dst : ℕ) : Except PyErr Graph × ℕ :=
  match v.entropy with
  | some ent =>
    let x := data dst
    let e : Mat → ℝ := fun samp =>
      vecMean B (fun b => model.log_prob x (v.reparam samp) b) + ent
    (Except.ok { x := x, loss := fun samp => -(e samp), elbos := fun samp _ => e samp },
     dst + 1)
  | none =>
    let x := data dst
    let e : Mat → ℝ := fun samp =>
      vecMean B (fun b =>
        model.log_prob x (v.reparam samp) b - q_log_prob v (v.reparam samp) b)
    (Except.ok { x := x, loss := fun samp => -(e samp), elbos := fun samp _ => e samp },
     dst + 1)

/-- KLpq.build_score_loss, line 191: the per-draw log importance weight
`log_w = model.log_prob(x, samples) - q_log_prob`. -/
def KLpq.log_w (model : ModelT) (v : VariationalT) (x : ℝ) (samp : Mat) (b : ℕ) : ℝ :=
  model.log_prob x samp b - q_log_prob v samp b

/-- KLpq.build_score_loss, lines 192-193: the stabilized weight
`w = exp(max_log_w) * exp(log_w - max_log_w)`. -/
def KLpq.w (model : ModelT) (v : VariationalT) (x : ℝ) (samp : Mat) (B b : ℕ) : ℝ :=
  let max_log_w := vecMax B (KLpq.log_w model v x samp)
  Real.exp max_log_w * Real.exp (KLpq.log_w model v x samp b - max_log_w)

/-- KLpq.build_score_loss, lines 174-195: draws one data batch, sets
`elbos = w * log_w` per draw, and returns
`-mean(q_log_prob * stop_gradient(w))`. -/
def KLpq.build_score_loss (model : ModelT) (v : VariationalT) (data : DataT)
    (B dst : ℕ) : Except PyErr Graph × ℕ :=
  let x := data dst
  (Except.ok
    { x := x
      loss := fun samp => -vecMean B (fun b => q_log_prob v samp b * KLpq.w model v x samp B b)
      elbos := fun samp b => KLpq.w model v x samp B b * KLpq.log_w model v x samp b },
   dst + 1)

/-- KLpq.build_reparam_loss, lines 197-200: the NotImplementedError message
raised verbatim. -/
def KLpq.reparam_msg : String :=
  "KLpq: this inference method does not implement a reparameterization gradient. Please call `.run()` with `score=True`."

/-- KLpq.build_reparam_loss, lines 197-200: raises unconditionally, before
any data draw, whatever the model, family and data source are. -/
def KLpq.build_reparam_loss (model : ModelT) (v : VariationalT) (data : DataT)
    (B dst : ℕ) : Except PyErr Graph × ℕ :=
  (Except.error (PyErr.unsupportedOperation KLpq.reparam_msg), dst)

/-- Inference.update, lines 83-90: draw a fresh latent batch, feed it to the
stored elbo graph and run the session.  `self.data` is never consulted, so
the data-draw counter is returned unchanged. -/
def Inference.update (g : Graph) (latents : Mat) (dct : ℕ) : (ℕ → ℝ) × ℕ :=
  (g.elbos latents, dct)

/-- Inference.run, lines 79-81: the n_iter update iterations, threading the
data-draw counter and collecting the per-iteration elbo vectors; `lat t` is
the latent batch drawn at iteration t. -/
def Inference.run_loop (g : Graph) (lat : ℕ → Mat) (dct : ℕ) : ℕ → List (ℕ → ℝ) × ℕ
  | 0 => ([], dct)
  | n + 1 =>
    let p := Inference.run_loop g lat dct n
    let u := Inference.update g (lat n) p.2
    (p.1 ++ [u.1], u.2)

/-- A trivial external model used to evaluate the engine at concrete
inputs. -/
def model0 : ModelT := ⟨fun _ _ _ => 0⟩

/-- A concrete variational model exposing an analytic entropy. -/
def varEnt : VariationalT := ⟨1, fun _ _ _ => 0, some 0, fun z => z⟩

/-- A concrete variational model without an analytic entropy. -/
def varNoEnt : VariationalT := ⟨1, fun _ _ _ => 0, none, fun z => z⟩

/-- A concrete data stream whose k-th draw is the value k. -/
def data0 : DataT := fun k => (k : ℝ)

/-- A concrete built graph used to evaluate the run loop. -/
def g0 : Graph := ⟨0, fun _ => 0, fun _ _ => 0⟩

/-- A concrete stream of latent batches, one per iteration. -/
def lat0 : ℕ → Mat := fun _ => fun _ _ => 0

end

/-! ## Theorems -/

/-- C1: inferences.py lines 51-54 evaluated at the failing input.  Calling
run with an explicit score=False on a family whose class dict declares
reparam resolves self.score to True — the score-function estimator — even
though the run docstring (and the claim) say the reparameterization
estimator is used whenever score is not forced. -/
theorem resolve_score_explicit_false_forces_score :
    Inference.resolve_score (some false) true = true := rfl

/-- C2: MFVI.build_score_loss evaluated on a family with an analytic
entropy.  Line 124 reads the local variable x, which is assigned only in
the branch without entropy (line 136), so the construction fails before any
data batch is drawn or any loss is returned; the data-draw counter stays
at 0. -/
theorem mfvi_score_entropy_branch_unbound_x :
    MFVI.build_score_loss model0 varEnt data0 1 0
      = (Except.error (PyErr.unboundLocal "x"), 0) := rfl

/-- The log-sum-exp shift cancels exactly in real arithmetic. -/
theorem exp_shift_cancel (M t : ℝ) : Real.exp M * Real.exp (t - M) = Real.exp t := by
  rw [← Real.exp_add]
  congr 1
  ring

/-- C3: in KLpq.build_score_loss (lines 182-195), the stabilized weight
`w = exp(max_log_w) * exp(log_w - max_log_w)` equals `exp(log_w)` per draw
(a well-defined real number for every log_w, with no division by the sum of
the weights, i.e. no self-normalization); the reported per-draw quantity is
`w * log_w` and the returned loss is `-mean(q_log_prob * stopgrad(w))`. -/
theorem klpq_weight_unnormalized_exp (model : ModelT) (v : VariationalT)
    (data : DataT) (B dst b : ℕ) (samp : Mat) :
    KLpq.w model v (data dst) samp B b = Real.exp (KLpq.log_w model v (data dst) samp b)
  ∧ (KLpq.build_score_loss model v data B dst).1.map (fun g => (g.elbos samp b, g.loss samp))
      = Except.ok
        (Real.exp (KLpq.log_w model v (data dst) samp b) * KLpq.log_w model v (data dst) samp b,
         -vecMean B (fun c => q_log_prob v samp c * Real.exp (KLpq.log_w model v (data dst) samp c))) := by
  have hw : ∀ c, KLpq.w model v (data dst) samp B c
      = Real.exp (KLpq.log_w model v (data dst) samp c) := by
    intro c
    unfold KLpq.w
    exact exp_shift_cancel _ _
  refine ⟨hw b, ?_⟩
  simp only [KLpq.build_score_loss, Except.map, hw]

/-- C4, counterexample: with num_vars = 3 and all unconstrained parameters
0, the probability that log_prob_zi feeds to the log-pmf collaborator at
the last index i = 2 is sigmoid(0) = 1/2, not the simplex-completed value
1 - (1/2 + 1/2) = 0 used by sample and print_params; probing with the
collaborator that returns its probability argument exposes the mismatch. -/
theorem bernoulli_last_dim_log_prob_counterexample :
    MFBernoulli.log_prob_zi 3 (fun _ => 0) (fun _ p => p) 2 (fun _ _ => 0)
      ≠ Except.ok (fun _ => MFBernoulli.completed_p 3 (fun _ => 0) 2) := by
  have hs : sigmoid 0 = 1 / 2 := by
    unfold sigmoid
    rw [neg_zero, Real.exp_zero]
    norm_num
  have hL : MFBernoulli.log_prob_zi 3 (fun _ => 0) (fun _ p => p) 2 (fun _ _ => 0)
      = Except.ok (fun _ => sigmoid 0) := by
    simp only [MFBernoulli.log_prob_zi, MFBernoulli.lp_prob]
    norm_num
  have hc : MFBernoulli.completed_p 3 (fun _ => 0) 2 = 0 := by
    unfold MFBernoulli.completed_p
    norm_num [Finset.sum_range_succ, hs]
  intro hEq
  rw [hL] at hEq
  have hfun := Except.ok.inj hEq
  have hval := congrFun hfun 0
  rw [hs, hc] at hval
  norm_num at hval

/-- C4, amended: print_params and sample use the completed probability
vector, whose last entry is 1 minus the sum of the sigmoid probabilities of
the other dimensions, but log_prob_zi feeds sigmoid(p_unconst[i]) to the
log-pmf for every valid index i, the last one included: the completion
branch inside log_prob_zi is unreachable. -/
theorem bernoulli_completion_amended (d i : ℕ) (hd : 1 < d) (hi : i < d)
    (pu : ℕ → ℝ) (lpmf : ℝ → ℝ → ℝ) (rvs : ℝ → ℕ → ℝ) (z : Mat) (b : ℕ) :
    MFBernoulli.print_params d pu (d - 1)
      = 1 - ∑ k ∈ Finset.range (d - 1), sigmoid (pu k)
  ∧ (∀ j, j < d → MFBernoulli.sample d pu rvs b j
      = rvs (MFBernoulli.completed_p d pu j) b)
  ∧ MFBernoulli.log_prob_zi d pu lpmf i z
      = Except.ok (fun c => lpmf (z c i) (sigmoid (pu i))) := by
  refine ⟨?_, ?_, ?_⟩
  · unfold MFBernoulli.print_params MFBernoulli.completed_p
    rw [if_pos ⟨hd, rfl⟩]
  · intro j hj
    unfold MFBernoulli.sample
    rw [if_pos hj]
  · have hlp : MFBernoulli.lp_prob d pu i = sigmoid (pu i) := by
      unfold MFBernoulli.lp_prob
      rw [if_pos hi]
    unfold MFBernoulli.log_prob_zi
    rw [if_neg (not_le.mpr hi)]
    simp only [hlp]

/-- Witness for the amended C4 at d = 2, i = 1 = num_vars - 1. -/
theorem bernoulli_completion_amended_witness :
    MFBernoulli.print_params 2 (fun _ => 0) 1 = 1 - ∑ _k ∈ Finset.range 1, sigmoid 0
  ∧ (∀ j, j < 2 → MFBernoulli.sample 2 (fun _ => 0) (fun _ _ => 0) 0 j = 0)
  ∧ MFBernoulli.log_prob_zi 2 (fun _ => 0) (fun _ _ => 0) 1 (fun _ _ => 0)
      = Except.ok (fun _ => 0) :=
  bernoulli_completion_amended 2 1 (by decide) (by decide)
    (fun _ => 0) (fun _ _ => 0) (fun _ _ => 0) (fun _ _ => 0) 0

/-- C5: for every valid index i, MFGaussian.log_prob_zi (lines 231-242)
evaluates the external normal log-density at the non-reparameterized value
z[row, i], location identity(m_unconst[i]), and third argument
softplus(s_unconst[i]) squared — the std-dev literally squared. -/
theorem gaussian_log_prob_zi_variance_squared (d i : ℕ) (h : i < d)
    (mu su : ℕ → ℝ) (npdf : ℝ → ℝ → ℝ → ℝ) (z : Mat) :
    MFGaussian.log_prob_zi d mu su npdf i z
      = Except.ok (fun b => npdf (z b i) (mu i) (softplus (su i) ^ 2)) := by
  unfold MFGaussian.log_prob_zi
  rw [if_neg (not_le.mpr h)]
  simp only [id_eq, pow_two]

/-- Witness for C5 at d = 1, i = 0, with the collaborator returning its
third argument. -/
theorem gaussian_log_prob_zi_variance_squared_witness :
    MFGaussian.log_prob_zi 1 (fun _ => 0) (fun _ => 0) (fun _ _ v => v) 0 (fun _ _ => 0)
      = Except.ok (fun _ => softplus 0 ^ 2) :=
  gaussian_log_prob_zi_variance_squared 1 0 (by decide)
    (fun _ => 0) (fun _ => 0) (fun _ _ v => v) (fun _ _ => 0)

/-- C6: for every family and every index i ≥ num_vars, log_prob_zi fails
with the index-out-of-range error (the guard on lines 112, 162, 233)
instead of returning a value for a wrong component. -/
theorem log_prob_zi_index_out_of_range (d i : ℕ) (h : d ≤ i)
    (pu au bu mu su : ℕ → ℝ) (lpmf : ℝ → ℝ → ℝ) (bpdf npdf : ℝ → ℝ → ℝ → ℝ)
    (z : Mat) :
    MFBernoulli.log_prob_zi d pu lpmf i z = Except.error PyErr.indexOutOfRange
  ∧ MFBeta.log_prob_zi d au bu bpdf i z = Except.error PyErr.indexOutOfRange
  ∧ MFGaussian.log_prob_zi d mu su npdf i z = Except.error PyErr.indexOutOfRange := by
  unfold MFBernoulli.log_prob_zi MFBeta.log_prob_zi MFGaussian.log_prob_zi
  rw [if_pos h, if_pos h, if_pos h]
  exact ⟨rfl, rfl, rfl⟩

/-- Witness for C6 at num_vars = 2, i = 5. -/
theorem log_prob_zi_index_out_of_range_witness :
    MFBernoulli.log_prob_zi 2 (fun _ => 0) (fun _ _ => 0) 5 (fun _ _ => 0)
      = Except.error PyErr.indexOutOfRange
  ∧ MFBeta.log_prob_zi 2 (fun _ => 0) (fun _ => 0) (fun _ _ _ => 0) 5 (fun _ _ => 0)
      = Except.error PyErr.indexOutOfRange
  ∧ MFGaussian.log_prob_zi 2 (fun _ => 0) (fun _ => 0) (fun _ _ _ => 0) 5 (fun _ _ => 0)
      = Except.error PyErr.indexOutOfRange :=
  log_prob_zi_index_out_of_range 2 5 (by decide) (fun _ => 0) (fun _ => 0) (fun _ => 0)
    (fun _ => 0) (fun _ => 0) (fun _ _ => 0) (fun _ _ _ => 0) (fun _ _ _ => 0) (fun _ _ => 0)

/-- C7: KLpq.build_reparam_loss (lines 197-200) fails immediately, for
every model, family and data source and before any data draw, with an
unsupported-operation error whose message names the score-estimator
workaround score=True. -/
theorem klpq_reparam_loss_unsupported (model : ModelT) (v : VariationalT)
    (data : DataT) (B dst : ℕ) :
    KLpq.build_reparam_loss model v data B dst
      = (Except.error (PyErr.unsupportedOperation KLpq.reparam_msg), dst)
  ∧ ∃ pre post, KLpq.reparam_msg = pre ++ "score=True" ++ post := by
  refine ⟨rfl,
    "KLpq: this inference method does not implement a reparameterization gradient. Please call `.run()` with `",
    "`.", ?_⟩
  rfl

/-- C8: the base-class Likelihood.sample (lines 49-68) returns
reparam(sample_noise(size)) when both capabilities are present, and fails
with an unsupported-operation error when the family implements neither. -/
theorem likelihood_default_sample_fallback (f g : LikelihoodMethods) (size : ℕ)
    (sn : ℕ → Mat) (rp : Mat → Mat)
    (hsn : f.sample_noise = some sn) (hrp : f.reparam = some rp)
    (hn : g.sample_noise = none) (hr : g.reparam = none) :
    Likelihood.sample f size = Except.ok (rp (sn size))
  ∧ ∃ m, Likelihood.sample g size = Except.error (PyErr.unsupportedOperation m) := by
  constructor
  · unfold Likelihood.sample
    rw [hrp, hsn]
  · refine ⟨"reparam", ?_⟩
    unfold Likelihood.sample
    rw [hr]

/-- Witness for C8: a family with both capabilities and a family with
neither. -/
theorem likelihood_default_sample_fallback_witness :
    Likelihood.sample ⟨some (fun _ => fun _ _ => 0), some (fun z => z)⟩ 3
      = Except.ok (fun _ _ => 0)
  ∧ ∃ m, Likelihood.sample ⟨none, none⟩ 3
      = Except.error (PyErr.unsupportedOperation m) :=
  likelihood_default_sample_fallback
    ⟨some (fun _ => fun _ _ => 0), some (fun z => z)⟩ ⟨none, none⟩ 3
    (fun _ => fun _ _ => 0) (fun z => z) rfl rfl rfl rfl

/-- C9: for the Gaussian family at fixed parameters, sample (lines 221-229)
and reparam(sample_noise(n)) (lines 199-219) compute the same function of
the standard-normal draw eps: both return mean + eps * stddev elementwise,
with mean = identity(m_unconst) and stddev = softplus(s_unconst). -/
theorem gaussian_sample_reparam_agree (mu su : ℕ → ℝ) (eps : Mat) (b j : ℕ) :
    MFGaussian.sample mu su eps b j
      = MFGaussian.reparam mu su (MFGaussian.sample_noise eps) b j
  ∧ MFGaussian.reparam mu su (MFGaussian.sample_noise eps) b j
      = mu j + eps b j * softplus (su j) := by
  constructor
  · unfold MFGaussian.sample MFGaussian.reparam MFGaussian.sample_noise
    rw [mul_comm]
  · unfold MFGaussian.reparam MFGaussian.sample_noise
    rw [id_eq]

/-- C10, counterexample: for the MFVI score strategy on a family with an
analytic entropy, loss construction fails on the unbound local x before any
data draw: the data-draw counter stays at 5, so the data batch is not drawn
"exactly once at loss-construction time" for this strategy. -/
theorem data_drawn_once_counterexample :
    MFVI.build_score_loss model0 varEnt data0 2 5
      = (Except.error (PyErr.unboundLocal "x"), 5) := rfl

/-- C10, amended: every objective construction that succeeds — MFVI score
on a family without analytic entropy, MFVI reparam on any family, KLpq
score on any family — draws the data batch exactly once (the counter
advances from dst to dst + 1) and bakes the drawn batch data(dst) into the
graph; the update loop (lines 79-90) evaluates that same graph with a fresh
latent batch each iteration and never consults the data source, leaving the
data-draw counter unchanged. -/
theorem data_drawn_once_amended (model : ModelT) (v : VariationalT) (data : DataT)
    (B dst n : ℕ) (lat : ℕ → Mat) :
    (v.entropy = none →
       (MFVI.build_score_loss model v data B dst).2 = dst + 1
     ∧ (MFVI.build_score_loss model v data B dst).1.map Graph.x = Except.ok (data dst))
  ∧ ((MFVI.build_reparam_loss model v data B dst).2 = dst + 1
     ∧ (MFVI.build_reparam_loss model v data B dst).1.map Graph.x = Except.ok (data dst))
  ∧ ((KLpq.build_score_loss model v data B dst).2 = dst + 1
     ∧ (KLpq.build_score_loss model v data B dst).1.map Graph.x = Except.ok (data dst))
  ∧ ∀ g dct, Inference.run_loop g lat dct n
      = ((List.range n).map (fun t => g.elbos (lat t)), dct) := by
  refine ⟨?_, ?_, ⟨rfl, rfl⟩, ?_⟩
  · intro hent
    unfold MFVI.build_score_loss
    rw [hent]
    exact ⟨rfl, rfl⟩
  · cases hv : v.entropy with
    | some ent =>
      unfold MFVI.build_reparam_loss
      rw [hv]
      exact ⟨rfl, rfl⟩
    | none =>
      unfold MFVI.build_reparam_loss
      rw [hv]
      exact ⟨rfl, rfl⟩
  · intro g dct
    induction n with
    | zero => rfl
    | succ m ih =>
      unfold Inference.run_loop
      rw [ih]
      simp [Inference.update, List.range_succ]

/-- Witness for the amended C10 on concrete model, no-entropy family, data
stream and run length. -/
theorem data_drawn_once_amended_witness :
    ((MFVI.build_score_loss model0 varNoEnt data0 1 0).2 = 0 + 1
     ∧ (MFVI.build_score_loss model0 varNoEnt data0 1 0).1.map Graph.x = Except.ok (data0 0))
  ∧ (MFVI.build_reparam_loss model0 varNoEnt data0 1 0).2 = 0 + 1
  ∧ (KLpq.build_score_loss model0 varNoEnt data0 1 0).2 = 0 + 1
  ∧ Inference.run_loop g0 lat0 7 2 = ((List.range 2).map (fun t => g0.elbos (lat0 t)), 7) := by
  have h := data_drawn_once_amended model0 varNoEnt data0 1 0 2 lat0
  exact ⟨h.1 rfl, h.2.1.1, h.2.2.1.1, h.2.2.2 g0 7⟩
